import Mathlib

/-!
Shallow embedding of `src/main.py` of the dune-L2-dashboard repository.

The script is a linear pipeline: fetch TVL data from DefiLlama for two
chains, run a Dune analytics query per chain (by query id, or by raw SQL
as a fallback), inner-join the two series of each chain on the date
column, and render tiles, charts, a correlation statistic and a raw view.

Conventions of the embedding:
* Python floats are modelled as rationals (`Rat`).  To keep every
  definition evaluable by the kernel, rational arithmetic is expressed
  through `mkRat` and integer arithmetic on `num`/`den` (the operations
  `qAdd`, `qMul`, ... below), which are proved equal to the ordinary
  field operations of `Rat`.
* A pandas DataFrame whose column set is statically known is modelled as
  a list of records; an uncaught Python exception is `Except.error` with
  the exception text.
* The two HTTP backends are opaque: each fetch/query function takes the
  outcome of its single HTTP interaction as an explicit argument.
* Python string operations used by the script (substring test via `in`,
  `str.lower`, formatting) are re-implemented over `List Char`; `lower`
  is modelled on ASCII, which covers every message the script matches.
-/

/-! ## Kernel-evaluable rational arithmetic -/

/-- Multiplication on `Rat` expressed through `mkRat`, so that the kernel
can evaluate it on literals. -/
def qMul (a b : Rat) : Rat := mkRat (a.num * b.num) (a.den * b.den)

/-- Addition on `Rat` expressed through `mkRat`. -/
def qAdd (a b : Rat) : Rat := mkRat (a.num * (b.den : Int) + b.num * (a.den : Int)) (a.den * b.den)

/-- Negation on `Rat` expressed through `mkRat`. -/
def qNeg (a : Rat) : Rat := mkRat (-a.num) a.den

/-- Subtraction on `Rat` expressed through `mkRat`. -/
def qSub (a b : Rat) : Rat := qAdd a (qNeg b)

theorem qMul_eq (a b : Rat) : qMul a b = a * b := (Rat.mul_eq_mkRat a b).symm

theorem qAdd_eq (a b : Rat) : qAdd a b = a + b := (Rat.add_def' a b).symm

theorem qNeg_eq (a : Rat) : qNeg a = -a := by
  rw [qNeg, ← Rat.neg_mkRat, Rat.mkRat_self]

theorem qSub_eq (a b : Rat) : qSub a b = a - b := by
  rw [qSub, qAdd_eq, qNeg_eq, sub_eq_add_neg]

/-! ## Python string helpers -/

/-- Python substring test `needle in hay`, over the character data. -/
def containsSub (needle : String) (hay : List Char) : Bool :=
  match hay with
  | [] => needle.data.isEmpty
  | _ :: t => needle.data.isPrefixOf hay || containsSub needle t

/-- Python `in` on strings: `pyIn needle hay` is `needle in hay`. -/
def pyIn (needle hay : String) : Bool := containsSub needle hay.data

/-- ASCII case folding of one character (model of `str.lower` per char). -/
def asciiLower (c : Char) : Char :=
  if 65 ≤ c.toNat ∧ c.toNat ≤ 90 then Char.ofNat (c.toNat + 32) else c

/-- Model of Python `str.lower` (ASCII range; every message the script
matches against is ASCII). -/
def strLower (s : String) : String := ⟨s.data.map asciiLower⟩

/-- Python `str.startswith`, used to characterize the generic error shape. -/
def pyStartsWith (s pre : String) : Bool := pre.data.isPrefixOf s.data

/-! ## Data model -/

/-- One element of the JSON array served by the DefiLlama charts
endpoint: an epoch-seconds stamp and a liquidity figure. -/
structure LlamaRow where
  date : Int
  totalLiquidityUSD : Rat
deriving DecidableEq, Repr

/-- A row of the TVL DataFrame built by `fetch_defi_llama_tvl`: the
`date` column holds the calendar day (days since the epoch, the value of
`pd.to_datetime(..., unit=s).dt.date`), `tvl_usd` is the renamed
`totalLiquidityUSD` column. -/
structure TvlRecord where
  date : Int
  tvl_usd : Rat
deriving DecidableEq, Repr

/-- A row of the Dune analytics DataFrame after the date normalization
done inside the query helpers (`date` is a calendar day). -/
structure DuneRow where
  date : Int
  daily_active_users : Int
  transaction_count : Int
  avg_gas_fee_usd : Rat
deriving DecidableEq, Repr

/-- A row of the merged DataFrame produced by `merge_data`. -/
structure MergedRow where
  date : Int
  tvl_usd : Rat
  daily_active_users : Int
  transaction_count : Int
  avg_gas_fee_usd : Rat
deriving DecidableEq, Repr

/-- Truncation of an epoch-seconds stamp to a calendar day, the effect of
`pd.to_datetime(pd.to_numeric(col), unit=s).dt.date`. -/
def epochToDay (s : Int) : Int := Int.fdiv s 86400

/-! ## TVL fetcher (`fetch_defi_llama_tvl`, src/main.py lines 67-84) -/

/-- Outcome of the single HTTP GET issued by `fetch_defi_llama_tvl`.
`requestError` covers every `requests.exceptions.RequestException`:
connection failures, non-2xx statuses surfaced by `raise_for_status`,
and JSON decoding failures of `response.json()` (a `RequestException`
subclass).  `okRows` is a 2xx response whose JSON is an array of chart
points carrying `date` and `totalLiquidityUSD` keys; `okMalformed` is a
2xx response with any other valid JSON (an object, or an array of
objects without a `date` key), whose DataFrame lacks a `date` column. -/
inductive LlamaResponse where
  | requestError
  | okRows (rows : List LlamaRow)
  | okMalformed
deriving DecidableEq, Repr

/-- Embedding of `fetch_defi_llama_tvl`.  The `try` block builds a
DataFrame from the decoded JSON and reads `df[date]` to convert it; only
`requests.exceptions.RequestException` is caught (returning the empty
frame with columns `date`, `tvl_usd`).  When the response is a 2xx whose
DataFrame has no `date` column — which includes the empty JSON array
`[]`, since `pd.DataFrame([])` has no columns — the subscript raises an
uncaught `KeyError`. -/
def fetch_defi_llama_tvl (resp : LlamaResponse) : Except String (List TvlRecord) :=
  match resp with
  | .requestError => .ok []
  | .okMalformed => .error "KeyError: date"
  | .okRows rows =>
      if rows = [] then .error "KeyError: date"
      else .ok (rows.map fun r => ⟨epochToDay r.date, r.totalLiquidityUSD⟩)

/-! ## Merge stage (`merge_data`, src/main.py lines 237-241) -/

/-- The record produced for a matching pair by `pd.merge(tvl, dune,
on=date, how=inner)`: the shared key plus the non-key columns of the
left then the right frame. -/
def mkMerged (a : TvlRecord) (b : DuneRow) : MergedRow :=
  ⟨a.date, a.tvl_usd, b.daily_active_users, b.transaction_count, b.avg_gas_fee_usd⟩

/-- Embedding of `merge_data`: explicit empty-input guard, then the
pandas inner join on `date` (each left row paired, in left order, with
the right rows sharing its key, in right order). -/
def merge_data (tvl : List TvlRecord) (dune : List DuneRow) : List MergedRow :=
  if tvl = [] ∨ dune = [] then []
  else tvl.flatMap fun a => ((dune.filter fun b => b.date == a.date).map (mkMerged a))

/-- The same inner join with the argument frames swapped,
`pd.merge(dune, tvl, on=date, how=inner)`, with the produced records
written with the same field names so the two results are comparable. -/
def merge_data_swapped (dune : List DuneRow) (tvl : List TvlRecord) : List MergedRow :=
  if dune = [] ∨ tvl = [] then []
  else dune.flatMap fun b => ((tvl.filter fun a => a.date == b.date).map fun a => mkMerged a b)

/-! ## Dune query runners (src/main.py lines 86-148) -/

/-- The Dune client built at startup (src/main.py lines 19-26):
`DuneClient(DUNE_API_KEY)` when the environment variable is set and
nonempty (Python truthiness of the string), otherwise `None`. -/
def mk_dune_client (key : Option String) : Option String :=
  match key with
  | none => none
  | some s => if s = "" then none else some s

/-- Outcome of `dune_client.run_query_dataframe`, including the date
normalization applied to the frame inside the same `try` block:
well-formed per-day rows, or a raised exception with its text. -/
inductive IdBackendOutcome where
  | ok (rows : List DuneRow)
  | exc (msg : String)
deriving DecidableEq, Repr

/-- Embedding of `query_dune_api_by_id`.  With no client it returns the
empty frame at once; otherwise any exception from the backend is
re-raised as a generic error naming the query id. -/
def query_dune_api_by_id (client : Option String) (query_id : Int)
    (backend : IdBackendOutcome) : Except String (List DuneRow) :=
  match client with
  | none => .ok []
  | some _ =>
      match backend with
      | .ok rows => .ok rows
      | .exc msg => .error ("Dune API error for query ID " ++ toString query_id ++ ": " ++ msg)

/-- Outcome of `dune_client.run_sql` together with the row extraction
that follows it: `ok (some rows)` when one of the probed attributes
yields a row list, `ok none` when no rows attribute is found, `exc` when
the call (or the extraction inside the same `try`) raises. -/
inductive SqlBackendOutcome where
  | ok (rows : Option (List DuneRow))
  | exc (msg : String)
deriving DecidableEq, Repr

/-- The remediation message raised by `query_dune_api_by_sql` when the
backend failure text indicates an insufficient tier (src/main.py lines
142-147). -/
def capability_error_msg : String :=
  "Dune API requires a paid plan to create queries programmatically. Please create queries manually in Dune Analytics UI and use query IDs instead. Set ARBITRUM_QUERY_ID and OPTIMISM_QUERY_ID environment variables."

/-- The tier test of src/main.py line 142: the lower-cased failure text
contains the words paid plan or upgrade. -/
def tier_message (msg : String) : Bool :=
  pyIn "paid plan" (strLower msg) || pyIn "upgrade" (strLower msg)

/-- Embedding of `query_dune_api_by_sql`.  With no client it returns the
empty frame; a falsy row extraction gives the empty frame; an exception
becomes the capability remediation error when its text matches
`tier_message`, and a generic error naming the query otherwise. -/
def query_dune_api_by_sql (client : Option String) (query_name : String)
    (_sql_query : String) (backend : SqlBackendOutcome) : Except String (List DuneRow) :=
  match client with
  | none => .ok []
  | some _ =>
      match backend with
      | .ok (some rows) => if rows.isEmpty then .ok [] else .ok rows
      | .ok none => .ok []
      | .exc msg =>
          if tier_message msg then .error capability_error_msg
          else .error ("Dune API error for " ++ query_name ++ ": " ++ msg)

/-! ## Main flow: per-chain Dune load (src/main.py lines 184-234) -/

/-- The user-visible messages emitted while loading one chain, in the
order the script emits them (`st.warning` / `st.error` calls). -/
inductive UiMsg where
  | warnFallback (chain : String)
  | errCapabilityGuidance (chain : String)
  | errSurface (chain : String) (e : String)
  | errInvalidId (chain : String) (raw : String)
  | warnEmpty (chain : String)
deriving DecidableEq, Repr

/-- The text of the outer exception surface of src/main.py lines 207 and
233. -/
def surface_error_text (chain e : String) : String :=
  "Error querying Dune API for " ++ chain ++ ": " ++ e

/-- Embedding of one chain branch of the main data load (the arbitrum
branch, lines 185-208; the optimism branch is identical).  When a query
id is configured it is parsed with `int` and run by reference; otherwise
the script warns and falls back to the raw-SQL runner, whose paid-plan
failure is turned into capability guidance while any other failure is
re-raised to the outer handler.  The empty-result warning fires whenever
the frame held at the end of the inner `try` is empty. -/
def load_dune_data (client : Option String) (chain : String) (sql_query : String)
    (query_id_env : Option String) (idb : IdBackendOutcome) (sqlb : SqlBackendOutcome) :
    List DuneRow × List UiMsg :=
  match query_id_env with
  | some raw =>
      match raw.toInt? with
      | none => ([], [UiMsg.errInvalidId chain raw, UiMsg.warnEmpty chain])
      | some qid =>
          match query_dune_api_by_id client qid idb with
          | .ok df => (df, if df.isEmpty then [UiMsg.warnEmpty chain] else [])
          | .error e => ([], [UiMsg.errSurface chain e])
  | none =>
      match query_dune_api_by_sql client chain sql_query sqlb with
      | .ok df =>
          (df, UiMsg.warnFallback chain :: (if df.isEmpty then [UiMsg.warnEmpty chain] else []))
      | .error e =>
          if pyIn "paid plan" (strLower e)
          then ([], [UiMsg.warnFallback chain, UiMsg.errCapabilityGuidance chain,
                     UiMsg.warnEmpty chain])
          else ([], [UiMsg.warnFallback chain, UiMsg.errSurface chain e])

/-! ## Presentation helpers (src/main.py lines 250-317) -/

/-- Nearest integer with ties to even, the rounding of Python fixed-point
formatting, applied to `q` scaled to hundredths; computed on `num`/`den`
so the kernel can evaluate it. -/
def fixed2Hundredths (q : Rat) : Int :=
  let n : Int := 100 * q.num
  let d : Int := (q.den : Int)
  let f : Int := Int.fdiv n d
  let r : Int := n - f * d
  if 2 * r < d then f
  else if d < 2 * r then f + 1
  else if f % 2 = 0 then f else f + 1

/-- Python fixed-point formatting with two decimals, the `:.2f` format
specifier. -/
def formatFixed2 (q : Rat) : String :=
  let h := fixed2Hundredths q
  let a := h.natAbs
  (if h < 0 then "-" else "") ++ toString (a / 100) ++ "." ++
    (if a % 100 < 10 then "0" else "") ++ toString (a % 100)

/-- Digit grouping: walking the reversed digit list, insert a comma
after every third digit. -/
def groupDigits : List Char → Nat → List Char
  | [], _ => []
  | c :: cs, 0 => ',' :: c :: groupDigits cs 2
  | c :: cs, k + 1 => c :: groupDigits cs k

/-- Python thousands-separated integer formatting, the `:,` format
specifier. -/
def formatThousands (n : Int) : String :=
  let s := toString n.natAbs
  (if n < 0 then "-" else "") ++ ⟨(groupDigits s.data.reverse 3).reverse⟩

/-- The TVL tile text of src/main.py lines 260-261: the latest `tvl_usd`
divided by 1e9 and formatted as dollars-billions. -/
def tvl_tile (r : MergedRow) : String :=
  "$" ++ formatFixed2 (qMul r.tvl_usd (mkRat 1 1000000000)) ++ "B"

/-- The daily-users tile text of src/main.py lines 262-263. -/
def dau_tile (r : MergedRow) : String := formatThousands r.daily_active_users

/-- The gas-fee column of a merged frame. -/
def col_gas (l : List MergedRow) : List Rat := l.map fun r => r.avg_gas_fee_usd

/-- The transaction-count column of a merged frame, as the numeric
values correlation works on. -/
def col_tx (l : List MergedRow) : List Rat := l.map fun r => mkRat r.transaction_count 1

/-- Sum of a rational column. -/
def sumq (l : List Rat) : Rat := l.foldr qAdd 0

/-- A positive multiple of the sample variance of a column: n times the
sum of squares minus the square of the sum.  It is zero exactly when the
variance is zero. -/
def scaledVar (l : List Rat) : Rat :=
  qSub (qMul (mkRat l.length 1) (sumq (l.map fun x => qMul x x)))
    (qMul (sumq l) (sumq l))

/-- Whether `pandas.Series.corr` yields the float NaN on these two
columns: fewer than two observations, or a zero-variance column, make
the Pearson coefficient undefined, and pandas returns NaN (it does not
raise). -/
def corrIsNaN (xs ys : List Rat) : Bool :=
  decide (xs.length < 2) || decide (scaledVar xs = 0) || decide (scaledVar ys = 0)

/-- The dashboard sections the script can emit after the merge, in
order.  `corrMetrics` records whether each displayed coefficient is the
float NaN (rendered as the text nan by the `:.2f` format);
`corrWarning` is the `st.warning` of the correlation `except` branch. -/
inductive UiSection where
  | mergeError
  | success
  | tiles (arbTvl opTvl arbDau opDau : String)
  | charts
  | corrMetrics (arbIsNaN opIsNaN : Bool)
  | corrWarning (msg : String)
  | rawData
deriving DecidableEq, Repr

/-- The correlation block of src/main.py lines 300-310.  The `except`
branch maps a raised exception to `corrWarning`; on the typed numeric
columns of the model, `Series.corr` is total — a degenerate series
yields the NaN float value rather than an exception — and the metric
formatting is total as well, so the block always produces the metrics
pair, recording the NaN-ness of each coefficient. -/
def correlation_block (arb op : List MergedRow) : UiSection :=
  UiSection.corrMetrics (corrIsNaN (col_gas arb) (col_tx arb))
    (corrIsNaN (col_gas op) (col_tx op))

/-- Embedding of the post-merge presentation flow (src/main.py lines
246-317): if either merged frame is empty, only the blocking merge error
is emitted; otherwise the success banner, the latest-row tiles
(`iloc[-1]`), the four charts, the correlation block and the raw-data
expander are rendered in order. -/
def render_dashboard (arb op : List MergedRow) : List UiSection :=
  if h : arb = [] ∨ op = [] then [UiSection.mergeError]
  else
    let arbLast := arb.getLast fun he => h (Or.inl he)
    let opLast := op.getLast fun he => h (Or.inr he)
    [UiSection.success,
     UiSection.tiles (tvl_tile arbLast) (tvl_tile opLast) (dau_tile arbLast) (dau_tile opLast),
     UiSection.charts,
     correlation_block arb op,
     UiSection.rawData]

/-! ## Lemmas about the merge stage -/

theorem merge_data_eq_flatMap (A : List TvlRecord) (B : List DuneRow) :
    merge_data A B =
      A.flatMap fun a => ((B.filter fun b => b.date == a.date).map (mkMerged a)) := by
  rw [merge_data]
  split
  · rename_i h
    rcases h with h | h <;> subst h <;> simp
  · rfl

theorem merge_data_swapped_eq_flatMap (B : List DuneRow) (A : List TvlRecord) :
    merge_data_swapped B A =
      B.flatMap fun b => ((A.filter fun a => a.date == b.date).map fun a => mkMerged a b) := by
  rw [merge_data_swapped]
  split
  · rename_i h
    rcases h with h | h <;> subst h <;> simp
  · rfl

theorem filter_map_eq_flatMap {α β : Type} (p : α → Bool) (g : α → β) (l : List α) :
    (l.filter p).map g = l.flatMap fun x => if p x then [g x] else [] := by
  induction l with
  | nil => simp
  | cons x t ih => by_cases hx : p x <;> simp [List.filter_cons, hx, ih]

theorem int_beq_comm (x y : Int) : (x == y) = (y == x) := by
  by_cases h : x = y
  · subst h; rfl
  · rw [beq_eq_false_iff_ne.mpr h, beq_eq_false_iff_ne.mpr (Ne.symm h)]

theorem merge_data_perm_swapped (A : List TvlRecord) (B : List DuneRow) :
    (merge_data A B).Perm (merge_data_swapped B A) := by
  rw [← Multiset.coe_eq_coe, merge_data_eq_flatMap, merge_data_swapped_eq_flatMap]
  simp only [filter_map_eq_flatMap, ← Multiset.coe_bind]
  rw [Multiset.bind_bind]
  apply Multiset.bind_congr
  intro b _
  apply Multiset.bind_congr
  intro a _
  rw [int_beq_comm]

theorem filter_date_length_le_one (B : List DuneRow)
    (h : (B.map DuneRow.date).Nodup) (d : Int) :
    (B.filter fun b => b.date == d).length ≤ 1 := by
  induction B with
  | nil => simp
  | cons b t ih =>
      simp only [List.map_cons, List.nodup_cons] at h
      by_cases hb : b.date == d
      · have hd : b.date = d := by simpa using hb
        have ht : (t.filter fun x => x.date == d) = [] := by
          apply List.filter_eq_nil_iff.mpr
          intro x hx hxd
          apply h.1
          rw [hd, ← show x.date = d by simpa using hxd]
          exact List.mem_map_of_mem DuneRow.date hx
        simp [List.filter_cons, hb, ht]
      · simp only [List.filter_cons, hb, if_neg, Bool.false_eq_true, not_false_eq_true,
          if_false]
        exact ih h.2

theorem merge_dates_sublist (A : List TvlRecord) (B : List DuneRow)
    (h : (B.map DuneRow.date).Nodup) :
    ((merge_data A B).map MergedRow.date).Sublist (A.map TvlRecord.date) := by
  rw [merge_data_eq_flatMap]
  induction A with
  | nil => simp
  | cons a t ih =>
      rw [List.flatMap_cons, List.map_append, List.map_cons]
      have hle := filter_date_length_le_one B h a.date
      cases hf : (B.filter fun b => b.date == a.date) with
      | nil => simpa using ih.cons a.date
      | cons b tb =>
          have htb : tb = [] := by
            cases tb with
            | nil => rfl
            | cons x xs => rw [hf] at hle; simp at hle
          subst htb
          simpa [mkMerged] using ih.cons₂ a.date

/-! ## Lemmas about the string helpers -/

theorem isPrefixOf_append_self (l t : List Char) : l.isPrefixOf (l ++ t) = true := by
  induction l with
  | nil => simp [List.isPrefixOf]
  | cons c cs ih => simp [List.isPrefixOf, ih]

theorem containsSub_nil_needle (s : String) (hs : s.data = []) (hay : List Char) :
    containsSub s hay = true := by
  induction hay with
  | nil => simp [containsSub, hs]
  | cons c t ih => simp [containsSub, hs, ih, List.isPrefixOf]

theorem containsSub_append (s : String) (pre post : List Char) :
    containsSub s (pre ++ (s.data ++ post)) = true := by
  induction pre with
  | cons c cs ih => simp only [List.cons_append, containsSub, List.append_eq, ih, Bool.or_true]
  | nil =>
      rw [List.nil_append]
      cases hsd : s.data with
      | nil => exact containsSub_nil_needle s hsd _
      | cons c t =>
          rw [List.cons_append]
          rw [show containsSub s (c :: (t ++ post)) =
              (s.data.isPrefixOf (c :: (t ++ post)) || containsSub s (t ++ post)) from rfl]
          have hp : s.data.isPrefixOf (c :: (t ++ post)) = true := by
            rw [hsd]
            exact isPrefixOf_append_self (c :: t) post
          rw [hp, Bool.true_or]

theorem surface_contains_chain (chain e : String) :
    pyIn chain (surface_error_text chain e) = true := by
  rw [pyIn, surface_error_text, String.data_append, String.data_append, String.data_append,
    List.append_assoc, List.append_assoc]
  exact containsSub_append chain "Error querying Dune API for ".data (": ".data ++ e.data)

theorem generic_sql_error_contains_chain (chain m : String) :
    pyIn chain ("Dune API error for " ++ chain ++ ": " ++ m) = true := by
  rw [pyIn, String.data_append, String.data_append, String.data_append,
    List.append_assoc, List.append_assoc]
  exact containsSub_append chain "Dune API error for ".data (": ".data ++ m.data)

/-! ## Sortedness helper for the TVL series -/

/-- Strict ascending order of an integer column, as an evaluable test. -/
def strictAscBool : List Int → Bool
  | x :: y :: t => decide (x < y) && strictAscBool (y :: t)
  | _ => true

theorem strictAscBool_chain (l : List Int) :
    strictAscBool l = true ↔ List.Chain' (fun a b => a < b) l := by
  induction l with
  | nil => simp [strictAscBool]
  | cons x t ih =>
      cases t with
      | nil => simp [strictAscBool]
      | cons y s =>
          simp [strictAscBool, Bool.and_eq_true, decide_eq_true_eq, List.chain'_cons, ih]

theorem strictAsc_nodup (l : List Int) (h : strictAscBool l = true) : l.Nodup := by
  have hp := List.chain'_iff_pairwise.mp ((strictAscBool_chain l).mp h)
  exact List.Pairwise.imp (fun hlt => ne_of_lt hlt) hp

/-! ## Lemmas about the correlation columns -/

theorem sumq_eq_sum (l : List Rat) : sumq l = l.sum := by
  induction l with
  | nil => rfl
  | cons x t ih =>
      rw [sumq, List.foldr_cons, qAdd_eq, List.sum_cons]
      rw [sumq] at ih
      rw [ih]

theorem scaledVar_eq (l : List Rat) :
    scaledVar l = (l.length : Rat) * ((l.map fun x => x * x).sum) - l.sum * l.sum := by
  have hmap : (l.map fun x => qMul x x) = l.map fun x => x * x := by
    simp only [qMul_eq]
  rw [scaledVar, qSub_eq, qMul_eq, qMul_eq, hmap, sumq_eq_sum, sumq_eq_sum, Rat.mkRat_one]
  norm_cast

theorem scaledVar_replicate (n : Nat) (c : Rat) : scaledVar (List.replicate n c) = 0 := by
  rw [scaledVar_eq, List.map_replicate, List.sum_replicate, List.sum_replicate,
    List.length_replicate, nsmul_eq_mul, nsmul_eq_mul]
  ring

theorem isPrefixOf_extend (p q t : List Char) (h : p.isPrefixOf q = true) :
    p.isPrefixOf (q ++ t) = true := by
  induction p generalizing q with
  | nil => simp [List.isPrefixOf]
  | cons c cs ih =>
      cases q with
      | nil => simp [List.isPrefixOf] at h
      | cons d ds =>
          simp only [List.cons_append, List.isPrefixOf, Bool.and_eq_true] at h ⊢
          exact ⟨h.1, ih ds h.2⟩

theorem generic_has_prefix (chain m2 : String) :
    pyStartsWith ("Dune API error for " ++ chain ++ ": " ++ m2) "Dune API error" = true := by
  rw [pyStartsWith, String.data_append, String.data_append, String.data_append,
    List.append_assoc, List.append_assoc]
  exact isPrefixOf_extend "Dune API error".data "Dune API error for ".data _ (by decide)

/-! ## Claim theorems -/

/-- C1: `merge_data` performs an inner join on the `date` key: the
result is empty whenever either input frame is empty, and every output
record combines the TVL fields of an input TVL record and the analytics
fields of an input analytics record sharing the output record's date. -/
theorem merge_inner_join (A : List TvlRecord) (B : List DuneRow) :
    ((A = [] ∨ B = []) → merge_data A B = []) ∧
    (∀ m, m ∈ merge_data A B →
      ∃ a, a ∈ A ∧ ∃ b, b ∈ B ∧ a.date = m.date ∧ b.date = m.date ∧ m = mkMerged a b) := by
  constructor
  · intro h
    rw [merge_data, if_pos h]
  · intro m hm
    rw [merge_data_eq_flatMap] at hm
    simp only [List.mem_flatMap, List.mem_map, List.mem_filter] at hm
    obtain ⟨a, ha, b, ⟨hb, hbd⟩, hme⟩ := hm
    have hdd : b.date = a.date := by simpa using hbd
    subst hme
    exact ⟨a, ha, b, hb, rfl, hdd, rfl⟩

/-- Witness for C1: the empty case and the surviving record of a
singleton join. -/
theorem merge_inner_join_witness :
    merge_data [] [⟨5, 7, 8, 9⟩] = [] ∧
    (∃ a, a ∈ ([⟨5, 3⟩] : List TvlRecord) ∧ ∃ b, b ∈ ([⟨5, 7, 8, 9⟩] : List DuneRow) ∧
      a.date = (mkMerged ⟨5, 3⟩ ⟨5, 7, 8, 9⟩).date ∧
      b.date = (mkMerged ⟨5, 3⟩ ⟨5, 7, 8, 9⟩).date ∧
      mkMerged ⟨5, 3⟩ ⟨5, 7, 8, 9⟩ = mkMerged a b) :=
  ⟨(merge_inner_join [] [⟨5, 7, 8, 9⟩]).1 (Or.inl rfl),
   (merge_inner_join [⟨5, 3⟩] [⟨5, 7, 8, 9⟩]).2 (mkMerged ⟨5, 3⟩ ⟨5, 7, 8, 9⟩) (by decide)⟩

/-- C4: `merge_data` is deterministic (a function of its input frames),
commutative in content (swapping the joined frames permutes the result
set), and the surviving rows keep the first frame's relative order:
their date column is a sublist of the left frame's date column whenever
the right frame has at most one row per date, the caller guarantee the
spec states for both inputs. -/
theorem merge_deterministic_commutative (A : List TvlRecord) (B : List DuneRow) :
    (∀ A2 B2, A = A2 → B = B2 → merge_data A B = merge_data A2 B2) ∧
    (merge_data A B).Perm (merge_data_swapped B A) ∧
    ((B.map DuneRow.date).Nodup →
      ((merge_data A B).map MergedRow.date).Sublist (A.map TvlRecord.date)) :=
  ⟨fun _ _ hA hB => by rw [hA, hB], merge_data_perm_swapped A B, merge_dates_sublist A B⟩

/-- Witness for C4 at concrete two-row frames whose date order differs
between the two sides. -/
theorem merge_deterministic_commutative_witness :
    merge_data [⟨1, 10⟩, ⟨2, 20⟩] [⟨2, 3, 4, 5⟩, ⟨1, 6, 7, 8⟩] =
      merge_data [⟨1, 10⟩, ⟨2, 20⟩] [⟨2, 3, 4, 5⟩, ⟨1, 6, 7, 8⟩] ∧
    (merge_data [⟨1, 10⟩, ⟨2, 20⟩] [⟨2, 3, 4, 5⟩, ⟨1, 6, 7, 8⟩]).Perm
      (merge_data_swapped [⟨2, 3, 4, 5⟩, ⟨1, 6, 7, 8⟩] [⟨1, 10⟩, ⟨2, 20⟩]) ∧
    ((merge_data [⟨1, 10⟩, ⟨2, 20⟩] [⟨2, 3, 4, 5⟩, ⟨1, 6, 7, 8⟩]).map MergedRow.date).Sublist
      (([⟨1, 10⟩, ⟨2, 20⟩] : List TvlRecord).map TvlRecord.date) :=
  ⟨(merge_deterministic_commutative [⟨1, 10⟩, ⟨2, 20⟩] [⟨2, 3, 4, 5⟩, ⟨1, 6, 7, 8⟩]).1 _ _ rfl rfl,
   (merge_deterministic_commutative [⟨1, 10⟩, ⟨2, 20⟩] [⟨2, 3, 4, 5⟩, ⟨1, 6, 7, 8⟩]).2.1,
   (merge_deterministic_commutative [⟨1, 10⟩, ⟨2, 20⟩] [⟨2, 3, 4, 5⟩, ⟨1, 6, 7, 8⟩]).2.2
     (by decide)⟩

/-- C2 counterexample: the claim says `fetch_tvl` never raises and
returns an empty series on any failure; but on a successful (2xx)
response whose decoded JSON has no usable date column — the empty array,
or any non-chart JSON — the `df` date subscript raises an uncaught
KeyError (`Except.error` in the model), because only
`RequestException` is caught. -/
theorem fetch_tvl_never_raises_counterexample :
    fetch_defi_llama_tvl (.okRows []) = .error "KeyError: date" ∧
    fetch_defi_llama_tvl .okMalformed = .error "KeyError: date" :=
  ⟨rfl, rfl⟩

/-- C2 amended: network-level failures — every `RequestException`:
connection errors, HTTP error statuses, JSON-decode failures — are
caught and yield the empty series, with no retry (the function consumes
exactly one response); but a successful response whose decoded JSON
lacks the expected date field (including the empty array) raises an
uncaught KeyError instead of returning empty. -/
theorem fetch_tvl_error_policy :
    fetch_defi_llama_tvl .requestError = .ok [] ∧
    (∀ rows, rows ≠ [] → fetch_defi_llama_tvl (.okRows rows) =
      .ok (rows.map fun r => ⟨epochToDay r.date, r.totalLiquidityUSD⟩)) ∧
    fetch_defi_llama_tvl (.okRows []) = .error "KeyError: date" ∧
    fetch_defi_llama_tvl .okMalformed = .error "KeyError: date" := by
  refine ⟨rfl, ?_, rfl, rfl⟩
  intro rows hr
  simp [fetch_defi_llama_tvl, hr]

/-- Witness for the amended C2 theorem at a one-point response. -/
theorem fetch_tvl_error_policy_witness :
    ([⟨1700000000, 5⟩] : List LlamaRow) ≠ [] ∧
    fetch_defi_llama_tvl (.okRows [⟨1700000000, 5⟩]) =
      .ok (([⟨1700000000, 5⟩] : List LlamaRow).map fun r =>
        ⟨epochToDay r.date, r.totalLiquidityUSD⟩) :=
  ⟨by decide, fetch_tvl_error_policy.2.1 [⟨1700000000, 5⟩] (by decide)⟩

/-- C5 counterexample: the claim says the fetched series is sorted
ascending with no duplicate dates; but the fetch neither sorts nor
deduplicates — it returns the provider rows in provider order with each
stamp truncated to its day — so a response with two stamps inside one
calendar day yields two records with the same date. -/
theorem fetch_tvl_sorted_counterexample :
    fetch_defi_llama_tvl (.okRows [⟨0, 1⟩, ⟨1, 2⟩]) = .ok [⟨0, 1⟩, ⟨0, 2⟩] ∧
    ¬ (([⟨0, 1⟩, ⟨0, 2⟩] : List TvlRecord).map TvlRecord.date).Nodup :=
  ⟨rfl, by decide⟩

/-- C5 amended: the fetch preserves provider row order, truncating each
epoch stamp to its day; the result is strictly ascending in date with no
duplicates exactly when the day-truncated provider stamps are — as they
are for the documented one-point-per-day chart data. -/
theorem fetch_tvl_sorted_amended (rows : List LlamaRow) (hne : rows ≠ [])
    (hasc : strictAscBool (rows.map fun r => epochToDay r.date) = true) :
    ∃ out, fetch_defi_llama_tvl (.okRows rows) = .ok out ∧
      out.map TvlRecord.date = rows.map (fun r => epochToDay r.date) ∧
      strictAscBool (out.map TvlRecord.date) = true ∧
      (out.map TvlRecord.date).Nodup := by
  refine ⟨rows.map fun r => ⟨epochToDay r.date, r.totalLiquidityUSD⟩, ?_, ?_, ?_, ?_⟩
  · simp [fetch_defi_llama_tvl, hne]
  · rw [List.map_map]; rfl
  · rw [List.map_map]; exact hasc
  · rw [List.map_map]; exact strictAsc_nodup _ hasc

/-- Witness for the amended C5 theorem at a sorted two-day response. -/
theorem fetch_tvl_sorted_amended_witness :
    ([⟨0, 1⟩, ⟨86400, 2⟩] : List LlamaRow) ≠ [] ∧
    strictAscBool (([⟨0, 1⟩, ⟨86400, 2⟩] : List LlamaRow).map fun r =>
      epochToDay r.date) = true ∧
    (∃ out, fetch_defi_llama_tvl (.okRows [⟨0, 1⟩, ⟨86400, 2⟩]) = .ok out ∧
      out.map TvlRecord.date =
        ([⟨0, 1⟩, ⟨86400, 2⟩] : List LlamaRow).map (fun r => epochToDay r.date) ∧
      strictAscBool (out.map TvlRecord.date) = true ∧
      (out.map TvlRecord.date).Nodup) :=
  ⟨by decide, by decide,
   fetch_tvl_sorted_amended [⟨0, 1⟩, ⟨86400, 2⟩] (by decide) (by decide)⟩

/-- C3: with no query-reference id configured the main flow warns and
falls back to by-body (raw SQL) execution — the outcome does not depend
on the by-reference backend, which is never consulted — and a backend
failure whose text indicates an insufficient tier is raised as the
capability-tagged remediation error: a fixed message instructing the
caller to switch to query-reference ids, not the raw backend text, and
not of the generic error shape; any other failure text yields the
generic error shape instead. -/
theorem capability_fallback (chain sql key msg : String) (idb idb2 : IdBackendOutcome)
    (htier : tier_message msg = true) :
    load_dune_data (some key) chain sql none idb (.exc msg) =
      ([], [UiMsg.warnFallback chain, UiMsg.errCapabilityGuidance chain,
            UiMsg.warnEmpty chain]) ∧
    load_dune_data (some key) chain sql none idb (.exc msg) =
      load_dune_data (some key) chain sql none idb2 (.exc msg) ∧
    query_dune_api_by_sql (some key) chain sql (.exc msg) = .error capability_error_msg ∧
    pyIn "use query IDs instead" capability_error_msg = true ∧
    pyIn "ARBITRUM_QUERY_ID and OPTIMISM_QUERY_ID" capability_error_msg = true ∧
    pyStartsWith capability_error_msg "Dune API error" = false ∧
    (∀ m2, tier_message m2 = false →
      query_dune_api_by_sql (some key) chain sql (.exc m2) =
        .error ("Dune API error for " ++ chain ++ ": " ++ m2) ∧
      pyStartsWith ("Dune API error for " ++ chain ++ ": " ++ m2) "Dune API error" = true) := by
  have hcap : pyIn "paid plan" (strLower capability_error_msg) = true := by decide
  refine ⟨?_, ?_, ?_, by decide, by decide, by decide, ?_⟩
  · simp [load_dune_data, query_dune_api_by_sql, htier, hcap]
  · simp [load_dune_data, query_dune_api_by_sql, htier]
  · simp [query_dune_api_by_sql, htier]
  · intro m2 hm2
    exact ⟨by simp [query_dune_api_by_sql, hm2], generic_has_prefix chain m2⟩

/-- Witness for C3: the arbitrum branch with no configured id and a
paid-plan backend failure. -/
theorem capability_fallback_witness :
    tier_message "run_sql requires a paid plan" = true ∧
    load_dune_data (some "k") "arbitrum" "SELECT 1" none (.ok [])
        (.exc "run_sql requires a paid plan") =
      ([], [UiMsg.warnFallback "arbitrum", UiMsg.errCapabilityGuidance "arbitrum",
            UiMsg.warnEmpty "arbitrum"]) :=
  ⟨by decide,
   (capability_fallback "arbitrum" "SELECT 1" "k" "run_sql requires a paid plan"
     (.ok []) (.ok []) (by decide)).1⟩

/-- C9 counterexample: the claim says every non-capability failure is
raised with both the chain name and the attempted variant; but the
by-reference runner raises an error naming only the query id — the text
contains neither chain name.  The chain context is only added later by
the caller's surface message. -/
theorem generic_error_context_counterexample :
    query_dune_api_by_id (some "key") 12345 (.exc "connection reset") =
      .error ("Dune API error for query ID " ++ toString (12345 : Int) ++ ": " ++
        "connection reset") ∧
    ("Dune API error for query ID " ++ toString (12345 : Int) ++ ": " ++ "connection reset") =
      "Dune API error for query ID 12345: connection reset" ∧
    pyIn "arbitrum" "Dune API error for query ID 12345: connection reset" = false ∧
    pyIn "optimism" "Dune API error for query ID 12345: connection reset" = false :=
  ⟨rfl, by decide, by decide, by decide⟩

/-- C9 amended: for non-capability backend failures, the by-body runner
raises the generic error naming the chain (its query name identifies
both chain and variant); the by-reference runner raises the generic
error naming the attempted query id (identifying the by-reference
variant) but not the chain; the chain context for either variant is
attached by the caller when the failure is surfaced. -/
theorem generic_error_context_amended (chain key sql m : String) (qid : Int)
    (hm : tier_message m = false) :
    (query_dune_api_by_sql (some key) chain sql (.exc m) =
      .error ("Dune API error for " ++ chain ++ ": " ++ m) ∧
     pyIn chain ("Dune API error for " ++ chain ++ ": " ++ m) = true) ∧
    query_dune_api_by_id (some key) qid (.exc m) =
      .error ("Dune API error for query ID " ++ toString qid ++ ": " ++ m) ∧
    pyIn chain (surface_error_text chain
      ("Dune API error for query ID " ++ toString qid ++ ": " ++ m)) = true := by
  refine ⟨⟨?_, generic_sql_error_contains_chain chain m⟩, rfl, surface_contains_chain chain _⟩
  simp [query_dune_api_by_sql, hm]

/-- Witness for the amended C9 theorem on a non-capability failure. -/
theorem generic_error_context_amended_witness :
    tier_message "connection reset" = false ∧
    query_dune_api_by_sql (some "k") "optimism" "SELECT 1" (.exc "connection reset") =
      .error ("Dune API error for " ++ "optimism" ++ ": " ++ "connection reset") :=
  ⟨by decide,
   ((generic_error_context_amended "optimism" "k" "SELECT 1" "connection reset" 0
     (by decide)).1).1⟩

/-- C10: with no API key (or an empty one) the client is None; both
query runners then return the empty frame immediately: the result does
not depend on the backend outcome (nothing is sent to the backend), no
error is raised, and the result coincides with that of a successful
query that returned no rows. -/
theorem unconfigured_client_indistinguishable (key : String) (qid : Int)
    (name sql : String) (idb idb2 : IdBackendOutcome) (sqlb sqlb2 : SqlBackendOutcome) :
    mk_dune_client none = none ∧
    mk_dune_client (some "") = none ∧
    query_dune_api_by_id none qid idb = .ok [] ∧
    query_dune_api_by_sql none name sql sqlb = .ok [] ∧
    query_dune_api_by_id none qid idb = query_dune_api_by_id none qid idb2 ∧
    query_dune_api_by_sql none name sql sqlb = query_dune_api_by_sql none name sql sqlb2 ∧
    query_dune_api_by_id none qid idb = query_dune_api_by_id (some key) qid (.ok []) ∧
    query_dune_api_by_sql none name sql sqlb =
      query_dune_api_by_sql (some key) name sql (.ok (some [])) :=
  ⟨rfl, rfl, rfl, rfl, rfl, rfl, rfl, rfl⟩

/-- C6: whenever either merged series is empty the script emits the
blocking merge error and nothing else — no tiles, no charts, no
correlation output, no raw view. -/
theorem empty_merge_blocks_dashboard (arb op : List MergedRow) (h : arb = [] ∨ op = []) :
    render_dashboard arb op = [UiSection.mergeError] ∧
    (∀ a b c d, UiSection.tiles a b c d ∉ render_dashboard arb op) ∧
    UiSection.charts ∉ render_dashboard arb op ∧
    (∀ a b, UiSection.corrMetrics a b ∉ render_dashboard arb op) ∧
    (∀ m, UiSection.corrWarning m ∉ render_dashboard arb op) ∧
    UiSection.rawData ∉ render_dashboard arb op := by
  have hr : render_dashboard arb op = [UiSection.mergeError] := by
    unfold render_dashboard
    rw [dif_pos h]
  refine ⟨hr, ?_, ?_, ?_, ?_, ?_⟩ <;> simp [hr]

/-- Witness for C6: an empty arbitrum frame beside a nonempty optimism
frame. -/
theorem empty_merge_blocks_dashboard_witness :
    (([] : List MergedRow) = [] ∨ ([⟨0, 1, 2, 3, 4⟩] : List MergedRow) = []) ∧
    render_dashboard [] [⟨0, 1, 2, 3, 4⟩] = [UiSection.mergeError] :=
  ⟨Or.inl rfl, (empty_merge_blocks_dashboard [] [⟨0, 1, 2, 3, 4⟩] (Or.inl rfl)).1⟩

/-- C7: the single-day scenario: the provider point (1700000000, 1e9)
becomes day 19675; merging it with the one analytics record of the same
day yields exactly one combined record; the rendered latest-value tiles
(from the last record of each series) show the TVL scaled to billions as
the text dollar-1.00-B and the active users thousands-separated as
50,000. -/
theorem scenario_single_day :
    fetch_defi_llama_tvl (.okRows [⟨1700000000, 1000000000⟩]) = .ok [⟨19675, 1000000000⟩] ∧
    merge_data [⟨19675, 1000000000⟩] [⟨19675, 50000, 200000, mkRat 35 100⟩] =
      [⟨19675, 1000000000, 50000, 200000, mkRat 35 100⟩] ∧
    tvl_tile ⟨19675, 1000000000, 50000, 200000, mkRat 35 100⟩ = "$1.00B" ∧
    dau_tile ⟨19675, 1000000000, 50000, 200000, mkRat 35 100⟩ = "50,000" ∧
    render_dashboard [⟨19675, 1000000000, 50000, 200000, mkRat 35 100⟩]
        [⟨19675, 1000000000, 50000, 200000, mkRat 35 100⟩] =
      [UiSection.success,
       UiSection.tiles "$1.00B" "$1.00B" "50,000" "50,000",
       UiSection.charts,
       UiSection.corrMetrics true true,
       UiSection.rawData] :=
  ⟨rfl, by decide, by decide, by decide, by decide⟩

/-- C8 counterexample: with a constant gas-fee column and varying
transaction counts the Pearson coefficient is undefined, but pandas
returns the float NaN rather than raising, so the correlation `except`
branch never fires: the script shows a nan-valued metric and emits no
warning (the chart and raw sections still render).  The claim that this
failure degrades to a non-fatal warning is therefore false at this
input. -/
theorem corr_constant_counterexample :
    scaledVar (col_gas [⟨0, 1000000000, 1000, 100, mkRat 35 100⟩,
      ⟨1, 2000000000, 2000, 200, mkRat 35 100⟩]) = 0 ∧
    render_dashboard
        [⟨0, 1000000000, 1000, 100, mkRat 35 100⟩,
         ⟨1, 2000000000, 2000, 200, mkRat 35 100⟩]
        [⟨0, 1000000000, 1000, 100, mkRat 35 100⟩,
         ⟨1, 2000000000, 2000, 200, mkRat 35 100⟩] =
      [UiSection.success,
       UiSection.tiles "$2.00B" "$2.00B" "2,000" "2,000",
       UiSection.charts,
       UiSection.corrMetrics true true,
       UiSection.rawData] :=
  ⟨by decide, by decide⟩

/-- C8 amended: a constant gas-fee column makes the displayed Pearson
coefficient the float NaN, shown as a nan metric rather than a warning
(the except branch converts only genuinely raised exceptions into a
warning, and the computation raises nothing here); in no case does the
correlation computation abort the run — the sections before and after it
are still rendered. -/
theorem corr_constant_amended (arb op : List MergedRow) (c : Rat)
    (h1 : arb ≠ []) (h2 : op ≠ [])
    (hc : col_gas arb = List.replicate arb.length c) :
    ∃ t1 t2 t3 t4 q,
      render_dashboard arb op =
        [UiSection.success, UiSection.tiles t1 t2 t3 t4, UiSection.charts,
         UiSection.corrMetrics true q, UiSection.rawData] := by
  have hvar : scaledVar (col_gas arb) = 0 := by
    rw [hc]
    exact scaledVar_replicate _ _
  have hnan : corrIsNaN (col_gas arb) (col_tx arb) = true := by
    rw [corrIsNaN, hvar]
    simp
  have hrender : render_dashboard arb op =
      [UiSection.success,
       UiSection.tiles (tvl_tile (arb.getLast h1)) (tvl_tile (op.getLast h2))
         (dau_tile (arb.getLast h1)) (dau_tile (op.getLast h2)),
       UiSection.charts,
       correlation_block arb op,
       UiSection.rawData] := by
    unfold render_dashboard
    rw [dif_neg (not_or.mpr ⟨h1, h2⟩)]
  refine ⟨tvl_tile (arb.getLast h1), tvl_tile (op.getLast h2), dau_tile (arb.getLast h1),
    dau_tile (op.getLast h2), corrIsNaN (col_gas op) (col_tx op), ?_⟩
  rw [hrender]
  simp only [correlation_block, hnan]

/-- Witness for the amended C8 theorem: a two-row frame with constant
gas fees beside a singleton frame. -/
theorem corr_constant_amended_witness :
    ([⟨0, 1000000000, 1000, 100, mkRat 35 100⟩, ⟨1, 2000000000, 2000, 200, mkRat 35 100⟩] :
        List MergedRow) ≠ [] ∧
    ([⟨2, 5, 6, 7, 8⟩] : List MergedRow) ≠ [] ∧
    col_gas [⟨0, 1000000000, 1000, 100, mkRat 35 100⟩,
        ⟨1, 2000000000, 2000, 200, mkRat 35 100⟩] =
      List.replicate ([⟨0, 1000000000, 1000, 100, mkRat 35 100⟩,
        ⟨1, 2000000000, 2000, 200, mkRat 35 100⟩] : List MergedRow).length (mkRat 35 100) ∧
    (∃ t1 t2 t3 t4 q, render_dashboard
        [⟨0, 1000000000, 1000, 100, mkRat 35 100⟩, ⟨1, 2000000000, 2000, 200, mkRat 35 100⟩]
        [⟨2, 5, 6, 7, 8⟩] =
      [UiSection.success, UiSection.tiles t1 t2 t3 t4, UiSection.charts,
       UiSection.corrMetrics true q, UiSection.rawData]) :=
  ⟨by decide, by decide, by decide,
   corr_constant_amended _ _ (mkRat 35 100) (by decide) (by decide) (by decide)⟩
